import Mathlib

/-!
Verification development for the chat-communications middleware.

The repository is a Node/Express service translating internal application
calls into Rocket.Chat REST calls while persisting a local mapping between
internal user ids and the chat platform's user ids.  This file shallowly
embeds the parts of the source the claims are about:

* `src/src/generics/utils.js` — salted shake256 credential derivation
  (`usernameHash`, `passwordHash`) with env-configured salts and lengths;
* `src/src/database/queries/user.js` — the tenant-scoped identity store
  (`create`, `findOne`, `update`, `findUserWithJsonbFilter`);
* `src/src/services/communication.js` — the `CommunicationHelper` service
  class (`signup`, `login`, `logout`, `createRoom`);
* the `CommunicationHelper` variant embedded in
  `src/src/scripts/updateRCSettings.js` (`logout` with a local-record
  guard, `userMapping`);
* the Rocket.Chat adapter's `handleError` and request building;
* the env-validation module (`environmentVariables` table).

The remote platform is modelled as an oracle (`Adapter`): a record of
functions returning `Except JsError _`, mirroring the fact that every
adapter method either resolves with a value or throws a JS `Error` whose
only inspected component is its `message` string.  Each service operation
returns its response (or the propagated error), the ordered trace of
adapter calls it issued, the ordered trace of local `findOne` lookups, and
the resulting store.
-/

/-! ## JS errors and HTTP error shapes -/

/-- A JavaScript `Error` as the service observes it: the code only ever
inspects `error.message` (`'unauthorized'`, `'invalid-users'`, ...). -/
structure JsError where
  message : String
deriving DecidableEq, Repr

/-- Shape of `error.response` in the adapter's `handleError`
(axios error): HTTP status and `data.errorType`. -/
structure HttpErrorResponse where
  status : Nat
  errorType : Option String
deriving DecidableEq, Repr

/-- An axios-style error: optional HTTP response plus a message. -/
structure HttpError where
  response : Option HttpErrorResponse
  message : String
deriving DecidableEq, Repr

/-- The adapter's common error handler, from the Rocket.Chat request module:
status 401 throws `Error('unauthorized')`; status 400 with
`errorType === 'error-invalid-user'` throws `Error('invalid-users')`;
an error without an HTTP response is rethrown unchanged; any other HTTP
error falls through (the function returns `undefined`), modelled as
`.ok ()`. -/
def handleError (e : HttpError) : Except JsError Unit :=
  match e.response with
  | some r =>
    if r.status == 401 then
      .error { message := "unauthorized" }
    else if r.status == 400 && r.errorType == some "error-invalid-user" then
      .error { message := "invalid-users" }
    else
      .ok ()
  | none => .error { message := e.message }

/-- Headers of the adapter's `logout` HTTP request, from
`exports.logout` in the Rocket.Chat request module: it posts to the
logout endpoint with `X-Auth-Token: token` and `X-User-Id: userId`. -/
structure LogoutRequestHeaders where
  xAuthToken : String
  xUserId : String
deriving DecidableEq, Repr

/-- Builds the headers the adapter's `logout` sends, straight from the
source: the first argument becomes `X-User-Id`, the second
`X-Auth-Token`. -/
def rocketLogoutHeaders (userId token : String) : LogoutRequestHeaders :=
  { xAuthToken := token, xUserId := userId }

/-! ## Hashing (`src/src/generics/utils.js`)

The service derives chat credentials with Node's
`crypto.createHash('shake256', \x7b outputLength \x7d).update(salt + s).digest('hex')`.
The crypto library is external to this repository; it is modelled below by
its documented interface contract: the digest is a pure function of
`(outputLength, input)`, `outputLength` counts BYTES, and `digest('hex')`
renders each byte as two lowercase hexadecimal characters, so the hex
output has `2 * outputLength` characters.  The individual byte values use
a simple deterministic mixer in place of the Keccak permutation; no claim
in this development depends on the concrete byte values, only on
determinism and output length. -/

/-- One step of the stand-in byte mixer (deterministic in its inputs). -/
def mixStep (acc c : Nat) : Nat :=
  (acc * 131 + c + 7) % 65521

/-- One output byte of the modelled XOF: fold the input bytes from a
per-position seed. -/
def shakeByte (seed : Nat) (input : List Nat) : Nat :=
  (input.foldl mixStep seed) % 256

/-- Modelled shake256 byte output: `outputLength` bytes, each a pure
function of the position and the whole input. -/
def shake256bytes (outputLength : Nat) (input : List Nat) : List Nat :=
  (List.range outputLength).map (fun i => shakeByte (i + 1) input)

/-- Lowercase hexadecimal digit for a value below 16. -/
def hexChar (n : Nat) : Char :=
  if n < 10 then Char.ofNat (48 + n) else Char.ofNat (87 + n)

/-- Hex rendering of a byte list: two characters per byte, high nibble
first — the `digest('hex')` encoding. -/
def bytesToHexChars (bs : List Nat) : List Char :=
  bs.foldr (fun b acc => hexChar (b / 16) :: hexChar (b % 16) :: acc) []

/-- Modelled `crypto.createHash('shake256', \x7b outputLength \x7d).update(input).digest('hex')`:
a deterministic hex string of `2 * outputLength` characters. -/
def shake256hex (outputLength : Nat) (input : String) : String :=
  String.mk (bytesToHexChars (shake256bytes outputLength (input.data.map Char.toNat)))

/-- The four environment variables read at the top of
`src/src/generics/utils.js`, each possibly unset. -/
structure HashEnv where
  USERNAME_HASH_SALT : Option String
  PASSWORD_HASH_SALT : Option String
  USERNAME_HASH_LENGTH : Option String
  PASSWORD_HASH_LENGTH : Option String
deriving DecidableEq, Repr

/-- JS `parseInt(x, 10) || 8`: an unset or non-numeric variable parses to
`NaN` (falsy, so 8), and `'0'` parses to `0` (also falsy, so 8). -/
def parseIntOrEight (s : Option String) : Nat :=
  match s with
  | none => 8
  | some str =>
    match str.toNat? with
    | none => 8
    | some 0 => 8
    | some n => n

/-- The module-level constants of `utils.js` after applying the JS
defaulting (`|| ''` for the salts, `parseInt(..., 10) || 8` for the
lengths). -/
structure HashConfig where
  usernameHashSalt : String
  passwordHashSalt : String
  usernameHashLength : Nat
  passwordHashLength : Nat
deriving DecidableEq, Repr

/-- Evaluates the `utils.js` module-level constant initialisers on a given
environment. -/
def HashConfig.ofEnv (e : HashEnv) : HashConfig :=
  { usernameHashSalt := e.USERNAME_HASH_SALT.getD ""
    passwordHashSalt := e.PASSWORD_HASH_SALT.getD ""
    usernameHashLength := parseIntOrEight e.USERNAME_HASH_LENGTH
    passwordHashLength := parseIntOrEight e.PASSWORD_HASH_LENGTH }

/-- The configuration with all four hash environment variables unset:
empty salts, both lengths 8. -/
def defaultHashConfig : HashConfig :=
  HashConfig.ofEnv { USERNAME_HASH_SALT := none, PASSWORD_HASH_SALT := none,
                     USERNAME_HASH_LENGTH := none, PASSWORD_HASH_LENGTH := none }

/-- `exports.usernameHash` from `utils.js`: shake256 hex digest of the
username salt concatenated with the input, at the configured output
length. -/
def usernameHash (cfg : HashConfig) (s : String) : String :=
  shake256hex cfg.usernameHashLength (cfg.usernameHashSalt ++ s)

/-- `exports.passwordHash` from `utils.js`: shake256 hex digest of the
password salt concatenated with the input, at the configured output
length. -/
def passwordHash (cfg : HashConfig) (s : String) : String :=
  shake256hex cfg.passwordHashLength (cfg.passwordHashSalt ++ s)

/-! ## Identity store (`src/src/database/queries/user.js`)

Records carry the columns the service exercises: `user_id`, the
`user_info` JSON blob (holding `external_user_id`), and `tenant_code`.
Columns never touched by the embedded operations (`is_admin`, timestamps,
the soft-delete marker) are omitted.  A `tenant_code` of `none` models the
SQL NULL / JS `undefined` that the current service call sites supply. -/

/-- The `user_info` JSON blob as the service writes and reads it. -/
structure UserInfo where
  external_user_id : String
deriving DecidableEq, Repr

/-- One row of the `users` table. -/
structure UserRecord where
  user_id : String
  user_info : UserInfo
  tenant_code : Option String
deriving DecidableEq, Repr

/-- The `users` table, in insertion order. -/
abbrev Store := List UserRecord

/-- A `where` filter as the service passes it to `findOne` / `update`:
only `user_id` is ever supplied by the embedded call sites; the query
layer then forces `tenant_code` in. -/
structure UserFilter where
  user_id : Option String := none
deriving DecidableEq, Repr

/-- Whether a row matches a filter after the query layer has set
`filter.tenant_code = tenantCode`: every supplied component must be equal,
and `tenant_code` always is a component. -/
def matchesFilter (f : UserFilter) (tenantCode : Option String) (r : UserRecord) : Bool :=
  (match f.user_id with
   | none => true
   | some u => r.user_id == u) && r.tenant_code == tenantCode

/-- Data the service hands to `create`: `user_id` plus the `user_info`
blob; the query layer adds `tenant_code`. -/
structure CreateData where
  user_id : String
  user_info : UserInfo
deriving DecidableEq, Repr

namespace userQueries

/-- `exports.create`: sets `data.tenant_code = tenantCode` and inserts the
row, returning the stored row and the grown table. -/
def create (data : CreateData) (tenantCode : Option String) (store : Store) :
    UserRecord × Store :=
  let user : UserRecord :=
    { user_id := data.user_id, user_info := data.user_info, tenant_code := tenantCode }
  (user, store ++ [user])

/-- `exports.findOne`: sets `filter.tenant_code = tenantCode` and returns
the first matching row, if any. -/
def findOne (filter : UserFilter) (tenantCode : Option String) (store : Store) :
    Option UserRecord :=
  store.find? (matchesFilter filter tenantCode)

/-- An update payload: the embedded call sites only ever patch
`user_info`. -/
structure UserPatch where
  user_info : Option UserInfo := none
deriving DecidableEq, Repr

/-- Applies an update payload to a row, Sequelize-style: supplied fields
replace, absent fields persist. -/
def applyPatch (p : UserPatch) (r : UserRecord) : UserRecord :=
  { r with user_info := p.user_info.getD r.user_info }

/-- `exports.update`: sets `filter.tenant_code = tenantCode`, patches every
matching row, and returns the affected count with the new table. -/
def update (filter : UserFilter) (patch : UserPatch) (tenantCode : Option String)
    (store : Store) : Nat × Store :=
  ((store.filter (matchesFilter filter tenantCode)).length,
   store.map (fun r => if matchesFilter filter tenantCode r then applyPatch patch r else r))

/-- The filter accepted by `findUserWithJsonbFilter`: the one key in
`jsonbMappings` (`user_info_external_user_id`, compared against
`user_info->>'external_user_id'`) plus plain columns (only `user_id` is
ever used). -/
structure JsonbFilter where
  user_info_external_user_id : Option String := none
  user_id : Option String := none
deriving DecidableEq, Repr

/-- Whether a row matches a jsonb filter after the query layer has set
`where.tenant_code = tenantCode`. -/
def matchesJsonb (f : JsonbFilter) (tenantCode : Option String) (r : UserRecord) : Bool :=
  (match f.user_info_external_user_id with
   | none => true
   | some e => r.user_info.external_user_id == e) &&
  (match f.user_id with
   | none => true
   | some u => r.user_id == u) && r.tenant_code == tenantCode

/-- `exports.findUserWithJsonbFilter`: splits the filter into the jsonb
path condition and plain columns, forces `where.tenant_code = tenantCode`,
and returns the first matching row. -/
def findUserWithJsonbFilter (f : JsonbFilter) (tenantCode : Option String)
    (store : Store) : Option UserRecord :=
  store.find? (matchesJsonb f tenantCode)

end userQueries

/-! ## Responses and status codes

The modules `@generics/http-status`, `@constants/api-responses` and
`@helpers/responses` are required by the service but are not among the
sources. -/

/-! Modelled from the spec: the `@generics/http-status` codes the service
references (`ok`, `created`, `bad_request`, `unauthorized`, `not_found`)
are the standard HTTP numeric codes the spec names (200/201/400/401/404). -/

namespace httpStatusCode

def ok : Nat := 200

def created : Nat := 201

def bad_request : Nat := 400

def unauthorized : Nat := 401

def not_found : Nat := 404

end httpStatusCode

/-! Modelled from the spec: the `@constants/api-responses` message
constants used by the service; only their identity matters here, so each
is modelled as its own key. -/

namespace apiResponses

def UNAUTHORIZED_REQUEST : String := "UNAUTHORIZED_REQUEST"

def USER_DOEST_NOT_EXIST : String := "USER_DOEST_NOT_EXIST"

end apiResponses

/-- The payload carried in a response's `result` field. -/
inductive ResultPayload where
  | empty
  | record (r : UserRecord)
  | signupRes (user_id : String)
  | loginRes (user_id auth_token : String)
  | roomRes (room_id : String)
  | chat (d : String)
  | mapping (user_id external_user_id : String)
deriving DecidableEq, Repr

/-- Modelled from the spec: the response shape produced by
`@helpers/responses` — `\x7b statusCode, message, result \x7d` on success and a
typed failure `\x7b statusCode, message, responseCode \x7d` otherwise. -/
structure Response where
  statusCode : Nat
  responseCode : Option String
  message : String
  result : ResultPayload
deriving DecidableEq, Repr

/-- Modelled from the spec: `responses.successResponse` packages a status
code, a message and a result; success responses carry the `OK` response
code. -/
def successResponse (statusCode : Nat) (message : String) (result : ResultPayload) :
    Response :=
  { statusCode := statusCode, responseCode := some "OK", message := message,
    result := result }

/-- Modelled from the spec: `responses.failureResponse` packages a message,
a status code and an optional response code (the `updateRCSettings`
variant omits the response code); its result carries no payload.
Argument order follows the call sites. -/
def failureResponse (message : String) (statusCode : Nat)
    (responseCode : Option String) : Response :=
  { statusCode := statusCode, responseCode := responseCode, message := message,
    result := .empty }

/-! ## The chat platform adapter as an oracle -/

/-- Result of the adapter's `signup`: `\x7b user_id: response.data.user._id \x7d`. -/
structure SignupResult where
  user_id : String
deriving DecidableEq, Repr

/-- Result of the adapter's `login`:
`\x7b user_id: ...userId, auth_token: ...authToken \x7d`. -/
structure LoginResult where
  user_id : String
  auth_token : String
deriving DecidableEq, Repr

/-- Result of the adapter's `initiateChatRoom`:
`\x7b room: \x7b room_id: response.data.room.rid \x7d \x7d`. -/
structure RoomResult where
  room_id : String
deriving DecidableEq, Repr

/-- Opaque remote payload (`response.data`) returned by logout-style
calls. -/
abbrev ChatData := String

/-- The Rocket.Chat adapter as the service sees it: each method either
resolves or throws a `JsError`.  The concrete behaviour is an oracle
parameter, since it depends on the remote platform. -/
structure Adapter where
  signup : String → String → String → String → Except JsError SignupResult
  login : String → String → Except JsError LoginResult
  logout : String → String → Except JsError ChatData
  logoutOtherClients : String → String → Except JsError ChatData
  initiateChatRoom : List String → Except JsError RoomResult
  sendMessage : String → String → String → String → Except JsError ChatData
  setAvatar : String → String → Except JsError ChatData

/-- One adapter invocation, recorded in program order with the arguments
the service passed. -/
inductive AdapterCall where
  | signupCall (name username password email : String)
  | loginCall (username password : String)
  | logoutCall (userId token : String)
  | logoutOtherClientsCall (userId token : String)
  | initiateChatRoomCall (usernames : List String)
  | sendMessageCall (username password roomId msg : String)
  | setAvatarCall (username imageUrl : String)
deriving DecidableEq, Repr

/-- Outcome of one service operation: the returned response or the
propagated error, the ordered adapter-call trace, the ordered trace of
local `findOne` lookups, and the store afterwards. -/
structure OpResult where
  outcome : Except JsError Response
  calls : List AdapterCall
  lookups : List UserFilter
  store : Store
deriving Repr

/-- The `catch` block shared by `login` and `logout`: an error whose
message is `'unauthorized'` becomes the typed 401 failure; any other error
is rethrown. -/
def catchUnauthorized (e : JsError) : Except JsError Response :=
  if e.message == "unauthorized" then
    .ok (failureResponse apiResponses.UNAUTHORIZED_REQUEST httpStatusCode.unauthorized
      (some "UNAUTHORIZED"))
  else
    .error e

/-! ## The service operations (`src/src/services/communication.js`) -/

/-- Body of a signup request. -/
structure SignupBody where
  user_id : String
  name : String
  email : String
  image_url : Option String := none
deriving DecidableEq, Repr

/-- Body of a login request. -/
structure LoginBody where
  user_id : String
deriving DecidableEq, Repr

/-- Body of a logout request: the token is optional. -/
structure LogoutBody where
  user_id : String
  token : Option String := none
deriving DecidableEq, Repr

/-- Body of a createRoom request.  The source indexes
`bodyData.usernames[0]` and `[1]`; a missing element is JS `undefined`,
which string-concatenates as `"undefined"` inside the hash. -/
structure CreateRoomBody where
  usernames : List String
  initial_message : String
deriving DecidableEq, Repr

/-- JS array indexing as it reaches the hash: an out-of-range read yields
`undefined`, which `salt + string` coerces to the text `"undefined"`. -/
def jsIndex (l : List String) (i : Nat) : String :=
  (l.get? i).getD "undefined"

namespace CommunicationHelper

/-- `CommunicationHelper.signup`: look the user up (no tenant supplied, so
the query layer scopes to the `undefined`/NULL tenant); if present, answer
201 `USER_ALREADY_EXISTS` with the existing row and call nothing; else
derive both credentials from `user_id`, call the adapter's signup, persist
the row with the returned external id, optionally set the avatar, and
answer 201 `USER_CREATED_SUCCESSFULLY`.  Adapter errors propagate: the
function has no try/catch. -/
def signup (cfg : HashConfig) (a : Adapter) (b : SignupBody) (store : Store) :
    OpResult :=
  let lookups := [{ user_id := some b.user_id : UserFilter }]
  match userQueries.findOne { user_id := some b.user_id } none store with
  | some userExists =>
    { outcome := .ok (successResponse httpStatusCode.created "USER_ALREADY_EXISTS"
        (.record userExists)),
      calls := [], lookups := lookups, store := store }
  | none =>
    let uname := usernameHash cfg b.user_id
    let pwd := passwordHash cfg b.user_id
    let calls0 := [AdapterCall.signupCall b.name uname pwd b.email]
    match a.signup b.name uname pwd b.email with
    | .error e => { outcome := .error e, calls := calls0, lookups := lookups, store := store }
    | .ok chatResponse =>
      let store1 := (userQueries.create
        { user_id := b.user_id, user_info := { external_user_id := chatResponse.user_id } }
        none store).2
      match b.image_url with
      | none =>
        { outcome := .ok (successResponse httpStatusCode.created
            "USER_CREATED_SUCCESSFULLY" (.signupRes chatResponse.user_id)),
          calls := calls0, lookups := lookups, store := store1 }
      | some url =>
        match a.setAvatar (usernameHash cfg b.user_id) url with
        | .error e =>
          { outcome := .error e,
            calls := calls0 ++ [AdapterCall.setAvatarCall (usernameHash cfg b.user_id) url],
            lookups := lookups, store := store1 }
        | .ok _ =>
          { outcome := .ok (successResponse httpStatusCode.created
              "USER_CREATED_SUCCESSFULLY" (.signupRes chatResponse.user_id)),
            calls := calls0 ++ [AdapterCall.setAvatarCall (usernameHash cfg b.user_id) url],
            lookups := lookups, store := store1 }

/-- `CommunicationHelper.login`: call the adapter's login with both derived
credentials; success answers 200 `LOGGED_IN`; an `'unauthorized'` error
becomes the typed 401 failure; any other error is rethrown. -/
def login (cfg : HashConfig) (a : Adapter) (b : LoginBody) (store : Store) :
    OpResult :=
  let uname := usernameHash cfg b.user_id
  let pwd := passwordHash cfg b.user_id
  let calls := [AdapterCall.loginCall uname pwd]
  match a.login uname pwd with
  | .ok chatResponse =>
    { outcome := .ok (successResponse httpStatusCode.ok "LOGGED_IN"
        (.loginRes chatResponse.user_id chatResponse.auth_token)),
      calls := calls, lookups := [], store := store }
  | .error e =>
    { outcome := catchUnauthorized e, calls := calls, lookups := [], store := store }

/-- `CommunicationHelper.logout` (service module): with a token, call the
adapter's logout directly on the raw `bodyData.user_id`; without one,
log in with the derived credentials, revoke the other clients, then log
out the fresh session.  Any `'unauthorized'` error anywhere becomes the
typed 401 failure; other errors are rethrown.  No local lookup happens in
either branch. -/
def logout (cfg : HashConfig) (a : Adapter) (b : LogoutBody) (store : Store) :
    OpResult :=
  match b.token with
  | some tk =>
    let calls := [AdapterCall.logoutCall b.user_id tk]
    match a.logout b.user_id tk with
    | .ok chatResponse =>
      { outcome := .ok (successResponse httpStatusCode.ok "LOGGED_OUT"
          (.chat chatResponse)),
        calls := calls, lookups := [], store := store }
    | .error e =>
      { outcome := catchUnauthorized e, calls := calls, lookups := [], store := store }
  | none =>
    let uname := usernameHash cfg b.user_id
    let pwd := passwordHash cfg b.user_id
    let calls0 := [AdapterCall.loginCall uname pwd]
    match a.login uname pwd with
    | .error e =>
      { outcome := catchUnauthorized e, calls := calls0, lookups := [], store := store }
    | .ok loginResponse =>
      let calls1 := calls0 ++
        [AdapterCall.logoutOtherClientsCall loginResponse.user_id loginResponse.auth_token]
      match a.logoutOtherClients loginResponse.user_id loginResponse.auth_token with
      | .error e =>
        { outcome := catchUnauthorized e, calls := calls1, lookups := [], store := store }
      | .ok _ =>
        let calls2 := calls1 ++
          [AdapterCall.logoutCall loginResponse.user_id loginResponse.auth_token]
        match a.logout loginResponse.user_id loginResponse.auth_token with
        | .error e =>
          { outcome := catchUnauthorized e, calls := calls2, lookups := [], store := store }
        | .ok chatResponse =>
          { outcome := .ok (successResponse httpStatusCode.ok "LOGGED_OUT"
              (.chat chatResponse)),
            calls := calls2, lookups := [], store := store }

/-- The `catch` block of `createRoom`: an `'invalid-users'` error becomes
the typed 400 client error; any other error is rethrown. -/
def catchInvalidUsers (e : JsError) : Except JsError Response :=
  if e.message == "invalid-users" then
    .ok (failureResponse apiResponses.USER_DOEST_NOT_EXIST httpStatusCode.bad_request
      (some "CLIENT_ERROR"))
  else
    .error e

/-- `CommunicationHelper.createRoom`: hash both usernames, open the direct
room, then send the initial message as the first user (with that user's
derived password).  An `'invalid-users'` error becomes the typed 400
client error; any other error is rethrown. -/
def createRoom (cfg : HashConfig) (a : Adapter) (b : CreateRoomBody) (store : Store) :
    OpResult :=
  let userA := usernameHash cfg (jsIndex b.usernames 0)
  let userB := usernameHash cfg (jsIndex b.usernames 1)
  let users := [userA, userB]
  let calls0 := [AdapterCall.initiateChatRoomCall users]
  match a.initiateChatRoom users with
  | .error e =>
    { outcome := catchInvalidUsers e, calls := calls0, lookups := [], store := store }
  | .ok chatResponse =>
    let pwdA := passwordHash cfg (jsIndex b.usernames 0)
    let calls1 := calls0 ++
      [AdapterCall.sendMessageCall userA pwdA chatResponse.room_id b.initial_message]
    match a.sendMessage userA pwdA chatResponse.room_id b.initial_message with
    | .error e =>
      { outcome := catchInvalidUsers e, calls := calls1, lookups := [], store := store }
    | .ok _ =>
      { outcome := .ok (successResponse httpStatusCode.ok "LOGGED_IN"
          (.roomRes chatResponse.room_id)),
        calls := calls1, lookups := [], store := store }

end CommunicationHelper

namespace CommunicationHelper

/-- The `CommunicationHelper.logout` variant embedded in
`src/src/scripts/updateRCSettings.js`: identical to the service-module
logout except that the token-less branch first looks the user up locally
and answers a 404 `USER_DOES_NOT_EXIST` failure (no response code
supplied) when no record exists. -/
def logoutVariant (cfg : HashConfig) (a : Adapter) (b : LogoutBody) (store : Store) :
    OpResult :=
  match b.token with
  | some tk =>
    let calls := [AdapterCall.logoutCall b.user_id tk]
    match a.logout b.user_id tk with
    | .ok chatResponse =>
      { outcome := .ok (successResponse httpStatusCode.ok "LOGGED_OUT"
          (.chat chatResponse)),
        calls := calls, lookups := [], store := store }
    | .error e =>
      { outcome := catchUnauthorized e, calls := calls, lookups := [], store := store }
  | none =>
    let lookups := [{ user_id := some b.user_id : UserFilter }]
    match userQueries.findOne { user_id := some b.user_id } none store with
    | none =>
      { outcome := .ok (failureResponse "USER_DOES_NOT_EXIST" httpStatusCode.not_found none),
        calls := [], lookups := lookups, store := store }
    | some _ =>
      let uname := usernameHash cfg b.user_id
      let pwd := passwordHash cfg b.user_id
      let calls0 := [AdapterCall.loginCall uname pwd]
      match a.login uname pwd with
      | .error e =>
        { outcome := catchUnauthorized e, calls := calls0, lookups := lookups, store := store }
      | .ok loginResponse =>
        let calls1 := calls0 ++
          [AdapterCall.logoutOtherClientsCall loginResponse.user_id loginResponse.auth_token]
        match a.logoutOtherClients loginResponse.user_id loginResponse.auth_token with
        | .error e =>
          { outcome := catchUnauthorized e, calls := calls1, lookups := lookups, store := store }
        | .ok _ =>
          let calls2 := calls1 ++
            [AdapterCall.logoutCall loginResponse.user_id loginResponse.auth_token]
          match a.logout loginResponse.user_id loginResponse.auth_token with
          | .error e =>
            { outcome := catchUnauthorized e, calls := calls2, lookups := lookups,
              store := store }
          | .ok chatResponse =>
            { outcome := .ok (successResponse httpStatusCode.ok "LOGGED_OUT"
                (.chat chatResponse)),
              calls := calls2, lookups := lookups, store := store }

/-- `CommunicationHelper.userMapping` from the `updateRCSettings.js`
variant (the only version of this operation among the sources): look up
the row whose `user_info->>'external_user_id'` equals the given external
id (no tenant supplied, so the query layer scopes to the
`undefined`/NULL tenant); absence answers the typed 400 client error,
presence answers 200 with the internal and external ids. -/
def userMapping (userId : String) (store : Store) : Response :=
  match userQueries.findUserWithJsonbFilter
      { user_info_external_user_id := some userId } none store with
  | none =>
    failureResponse apiResponses.USER_DOEST_NOT_EXIST httpStatusCode.bad_request
      (some "CLIENT_ERROR")
  | some userDetails =>
    successResponse httpStatusCode.ok "NAME_UPDATED"
      (.mapping userDetails.user_id userDetails.user_info.external_user_id)

end CommunicationHelper

/-! ## Environment validation (the env-check module among the unnamed
sources)

The module walks a table of environment-variable descriptors; a
non-optional variable that is unset or empty flips the overall `success`
flag to false.  None of the descriptors carries a `requiredIf` clause or a
`possibleValues` list, so those branches of the walk are dead for this
table and are not modelled.  Defaults are applied to `process.env` after
the check and do not influence `success`. -/

/-- A process environment: each variable name is either set to a string or
unset. -/
abbrev Env := String → Option String

/-- One descriptor row of the validation table. -/
structure EnvVarSpec where
  name : String
  optional : Bool
  dflt : Option String
deriving DecidableEq, Repr

/-- The `environmentVariables` table, row for row from the source. -/
def environmentVariables : List EnvVarSpec :=
  [{ name := "APPLICATION_ENV", optional := false, dflt := none },
   { name := "APPLICATION_PORT", optional := true, dflt := some "3123" },
   { name := "APPLICATION_BASE_URL", optional := true, dflt := some "/communications/" },
   { name := "API_DOC_URL", optional := true, dflt := some "/api-doc" },
   { name := "CHAT_PLATFORM", optional := false, dflt := none },
   { name := "CHAT_PLATFORM_URL", optional := false, dflt := none },
   { name := "CHAT_PLATFORM_ADMIN_EMAIL", optional := false, dflt := none },
   { name := "CHAT_PLATFORM_ADMIN_PASSWORD", optional := false, dflt := none },
   { name := "CHAT_PLATFORM_ADMIN_USER_ID", optional := false, dflt := none },
   { name := "INTERNAL_ACCESS_TOKEN", optional := false, dflt := none },
   { name := "DEV_DATABASE_URL", optional := false, dflt := none },
   { name := "USERNAME_HASH_SALT", optional := false, dflt := none },
   { name := "PASSWORD_HASH_SALT", optional := false, dflt := none },
   { name := "USERNAME_HASH_LENGTH", optional := true, dflt := some "8" },
   { name := "PASSWORD_HASH_LENGTH", optional := true, dflt := some "8" }]

/-- Whether one descriptor passes: optional rows always pass; a mandatory
row passes exactly when the variable is set to a non-empty string
(`!process.env[x] || process.env[x] == ''` is the failure condition). -/
def envVarPasses (env : Env) (v : EnvVarSpec) : Bool :=
  v.optional ||
    (match env v.name with
     | none => false
     | some s => !(s == ""))

/-- The module's overall `success` flag: true exactly when every row of
the table passes. -/
def envCheckSuccess (env : Env) : Bool :=
  environmentVariables.all (envVarPasses env)

/-! ## Helper lemmas -/

/-- Hex rendering emits exactly two characters per byte. -/
theorem bytesToHexChars_length (bs : List Nat) :
    (bytesToHexChars bs).length = 2 * bs.length := by
  induction bs with
  | nil => rfl
  | cons b bs ih =>
    show (hexChar (b / 16) :: hexChar (b % 16) :: bytesToHexChars bs).length =
      2 * (b :: bs).length
    simp [ih, List.length_cons]
    omega

/-- The modelled XOF emits exactly `outputLength` bytes. -/
theorem shake256bytes_length (outputLength : Nat) (input : List Nat) :
    (shake256bytes outputLength input).length = outputLength := by
  simp [shake256bytes]

/-- The modelled hex digest has `2 * outputLength` characters. -/
theorem shake256hex_length (outputLength : Nat) (input : String) :
    (shake256hex outputLength input).length = 2 * outputLength := by
  show (bytesToHexChars (shake256bytes outputLength (input.data.map Char.toNat))).length =
    2 * outputLength
  rw [bytesToHexChars_length, shake256bytes_length]

/-- If no element of the first list satisfies the test, `find?` on the
concatenation searches the second list. -/
theorem find?_append_of_none {α : Type} {p : α → Bool} {l₁ l₂ : List α}
    (h : l₁.find? p = none) : (l₁ ++ l₂).find? p = l₂.find? p := by
  induction l₁ with
  | nil => rfl
  | cons x xs ih =>
    rw [List.cons_append]
    by_cases hx : p x = true
    · rw [List.find?_cons_of_pos _ hx] at h
      exact absurd h (by simp)
    · rw [Bool.not_eq_true] at hx
      rw [List.find?_cons_of_neg _ (by simp [hx])] at h
      rw [List.find?_cons_of_neg _ (by simp [hx])]
      exact ih h

/-! ## Claim C6 — credential length under the default configuration -/

/-- C6 counterexample: with the hash length environment variables unset,
`usernameHash` of the concrete input `"u1"` is 16 hexadecimal characters
long, not 8 — Node's `outputLength` option counts bytes, and
`digest('hex')` renders two characters per byte. -/
theorem hash_length_counterexample :
    (usernameHash defaultHashConfig "u1").length = 16 ∧
    ¬ (usernameHash defaultHashConfig "u1").length = 8 ∧
    (passwordHash defaultHashConfig "u1").length = 16 ∧
    ¬ (passwordHash defaultHashConfig "u1").length = 8 := by
  refine ⟨by decide, by decide, by decide, by decide⟩

/-- C6 amended: the derived credential strings are `2 * outputLength`
hexadecimal characters long; under the default configuration (length
variables unset, so `outputLength = 8` bytes) both derived credentials are
16 hexadecimal characters long for every input string. -/
theorem hash_length_amended (cfg : HashConfig) (s : String) :
    (usernameHash cfg s).length = 2 * cfg.usernameHashLength ∧
    (passwordHash cfg s).length = 2 * cfg.passwordHashLength ∧
    (usernameHash defaultHashConfig s).length = 16 ∧
    (passwordHash defaultHashConfig s).length = 16 := by
  refine ⟨shake256hex_length _ _, shake256hex_length _ _, ?_, ?_⟩
  · show (shake256hex defaultHashConfig.usernameHashLength _).length = 16
    rw [shake256hex_length]
    rfl
  · show (shake256hex defaultHashConfig.passwordHashLength _).length = 16
    rw [shake256hex_length]
    rfl

/-! ## Claim C1 — deterministic credential derivation -/

/-- C1: credential derivation is deterministic — two evaluations of
`usernameHash` (resp. `passwordHash`) under the same configured salt and
output length agree — and the service re-derives the same pair on every
operation: the login call issued by `login`, the signup call issued by
`signup` for a fresh user, and the fresh-login call issued by token-less
`logout` all carry exactly `usernameHash cfg user_id` and
`passwordHash cfg user_id`. -/
theorem credentials_rederived_equal (cfg : HashConfig) (s : String) (a : Adapter)
    (b : SignupBody) (store : Store)
    (hfresh : userQueries.findOne { user_id := some b.user_id } none store = none) :
    usernameHash cfg s = usernameHash cfg s ∧
    passwordHash cfg s = passwordHash cfg s ∧
    (CommunicationHelper.login cfg a { user_id := b.user_id } store).calls =
      [AdapterCall.loginCall (usernameHash cfg b.user_id) (passwordHash cfg b.user_id)] ∧
    (CommunicationHelper.signup cfg a b store).calls.head? =
      some (AdapterCall.signupCall b.name (usernameHash cfg b.user_id)
        (passwordHash cfg b.user_id) b.email) ∧
    (CommunicationHelper.logout cfg a { user_id := b.user_id, token := none } store).calls.head? =
      some (AdapterCall.loginCall (usernameHash cfg b.user_id) (passwordHash cfg b.user_id)) := by
  refine ⟨rfl, rfl, ?_, ?_, ?_⟩
  · unfold CommunicationHelper.login
    dsimp only
    cases a.login (usernameHash cfg b.user_id) (passwordHash cfg b.user_id) <;> rfl
  · unfold CommunicationHelper.signup
    rw [hfresh]
    dsimp only
    cases a.signup b.name (usernameHash cfg b.user_id) (passwordHash cfg b.user_id) b.email with
    | error e => rfl
    | ok r =>
      dsimp only
      cases b.image_url with
      | none => rfl
      | some url =>
        dsimp only
        cases a.setAvatar (usernameHash cfg b.user_id) url <;> rfl
  · unfold CommunicationHelper.logout
    dsimp only
    cases a.login (usernameHash cfg b.user_id) (passwordHash cfg b.user_id) with
    | error e => rfl
    | ok lr =>
      dsimp only
      cases a.logoutOtherClients lr.user_id lr.auth_token with
      | error e => rfl
      | ok d =>
        dsimp only
        cases a.logout lr.user_id lr.auth_token <;> rfl

/-- A concrete all-succeeding adapter used to instantiate oracle-based
theorems on concrete inputs. -/
def adapterOk : Adapter :=
  { signup := fun _ _ _ _ => .ok { user_id := "ext1" }
    login := fun _ _ => .ok { user_id := "ext1", auth_token := "tok1" }
    logout := fun _ _ => .ok "out"
    logoutOtherClients := fun _ _ => .ok "others-out"
    initiateChatRoom := fun _ => .ok { room_id := "room1" }
    sendMessage := fun _ _ _ _ => .ok "sent"
    setAvatar := fun _ _ => .ok "avatar" }

/-- Witness for C1 at concrete inputs: fresh store, concrete user. -/
theorem credentials_rederived_equal_witness :
    usernameHash defaultHashConfig "s0" = usernameHash defaultHashConfig "s0" ∧
    passwordHash defaultHashConfig "s0" = passwordHash defaultHashConfig "s0" ∧
    (CommunicationHelper.login defaultHashConfig adapterOk { user_id := "u1" } []).calls =
      [AdapterCall.loginCall (usernameHash defaultHashConfig "u1")
        (passwordHash defaultHashConfig "u1")] ∧
    (CommunicationHelper.signup defaultHashConfig adapterOk
        { user_id := "u1", name := "Alice", email := "a@x.com", image_url := none } []).calls.head? =
      some (AdapterCall.signupCall "Alice" (usernameHash defaultHashConfig "u1")
        (passwordHash defaultHashConfig "u1") "a@x.com") ∧
    (CommunicationHelper.logout defaultHashConfig adapterOk
        { user_id := "u1", token := none } []).calls.head? =
      some (AdapterCall.loginCall (usernameHash defaultHashConfig "u1")
        (passwordHash defaultHashConfig "u1")) :=
  credentials_rederived_equal defaultHashConfig "s0" adapterOk
    { user_id := "u1", name := "Alice", email := "a@x.com", image_url := none } [] rfl

/-! ## Claim C3 — tenant scoping of the identity store -/

/-- C3: every identity-store operation carries `tenant_code` as a
mandatory component equal to the tenant its caller supplied: `create`
stamps the supplied tenant onto the stored row; any row matched by the
(`findOne`/`update`) filter or the jsonb filter has that tenant; rows
returned by `findOne` and `findUserWithJsonbFilter` have that tenant;
`update` leaves every row of any other tenant untouched; and a lookup
scoped to one tenant never returns a record of a different tenant. -/
theorem identity_store_tenant_scoped (f : UserFilter) (jf : userQueries.JsonbFilter)
    (p : userQueries.UserPatch) (d : CreateData) (t t' : Option String)
    (store : Store) (r : UserRecord) :
    ((userQueries.create d t store).1.tenant_code = t ∧
      (userQueries.create d t store).2 = store ++ [(userQueries.create d t store).1]) ∧
    (∀ r0 : UserRecord, matchesFilter f t r0 = true → r0.tenant_code = t) ∧
    (userQueries.findOne f t store = some r → r.tenant_code = t) ∧
    (∀ r0 : UserRecord, userQueries.matchesJsonb jf t r0 = true → r0.tenant_code = t) ∧
    (userQueries.findUserWithJsonbFilter jf t store = some r → r.tenant_code = t) ∧
    (∀ r1 ∈ (userQueries.update f p t store).2, r1 ∈ store ∨
      ∃ r0 ∈ store, matchesFilter f t r0 = true ∧ r0.tenant_code = t ∧
        r1 = userQueries.applyPatch p r0) ∧
    (t ≠ t' → userQueries.findOne f t store = some r → r.tenant_code ≠ t') := by
  have hmf : ∀ r0 : UserRecord, matchesFilter f t r0 = true → r0.tenant_code = t := by
    intro r0 h
    simp only [matchesFilter, Bool.and_eq_true, beq_iff_eq] at h
    exact h.2
  have hmj : ∀ r0 : UserRecord, userQueries.matchesJsonb jf t r0 = true →
      r0.tenant_code = t := by
    intro r0 h
    simp only [userQueries.matchesJsonb, Bool.and_eq_true, beq_iff_eq] at h
    exact h.2
  have hfind : userQueries.findOne f t store = some r → r.tenant_code = t := by
    intro h
    exact hmf r (List.find?_some h)
  refine ⟨⟨rfl, rfl⟩, hmf, hfind, hmj, ?_, ?_, ?_⟩
  · intro h
    exact hmj r (List.find?_some h)
  · intro r1 h1
    simp only [userQueries.update] at h1
    rcases List.mem_map.mp h1 with ⟨r0, hr0, himg⟩
    by_cases hm : matchesFilter f t r0 = true
    · right
      refine ⟨r0, hr0, hm, hmf r0 hm, ?_⟩
      rw [← himg, if_pos hm]
    · left
      rw [← himg, if_neg hm]
      exact hr0
  · intro hne h
    rw [hfind h]
    exact fun hc => hne hc

/-- A concrete stored row under tenant `"a"` used by witnesses. -/
def recA : UserRecord :=
  { user_id := "u1", user_info := { external_user_id := "e1" }, tenant_code := some "a" }

/-- Witness for C3 at concrete inputs: a lookup scoped to tenant `"a"`
returns a row of tenant `"a"`, never one of tenant `"b"`. -/
theorem identity_store_tenant_scoped_witness :
    recA.tenant_code = some "a" ∧ recA.tenant_code ≠ some "b" :=
  ⟨(identity_store_tenant_scoped { user_id := some "u1" } {} {}
      { user_id := "u1", user_info := { external_user_id := "e1" } }
      (some "a") (some "b") [recA] recA).2.2.1 rfl,
   (identity_store_tenant_scoped { user_id := some "u1" } {} {}
      { user_id := "u1", user_info := { external_user_id := "e1" } }
      (some "a") (some "b") [recA] recA).2.2.2.2.2.2 (by decide) rfl⟩

/-! ## Claim C9 — hashing salts are mandatory at startup -/

/-- C9: the env-validation table marks both hashing salts non-optional, so
a successful validation guarantees both `USERNAME_HASH_SALT` and
`PASSWORD_HASH_SALT` are set and non-empty, and an unset or empty salt
forces the validation's `success` flag to false (startup refuses to
proceed). -/
theorem salt_required_at_startup (env : Env) :
    (envCheckSuccess env = true →
      (∃ s, env "USERNAME_HASH_SALT" = some s ∧ s ≠ "") ∧
      (∃ s, env "PASSWORD_HASH_SALT" = some s ∧ s ≠ "")) ∧
    ((env "USERNAME_HASH_SALT" = none ∨ env "USERNAME_HASH_SALT" = some "") →
      envCheckSuccess env = false) ∧
    ((env "PASSWORD_HASH_SALT" = none ∨ env "PASSWORD_HASH_SALT" = some "") →
      envCheckSuccess env = false) := by
  have hget : ∀ name : String,
      ({ name := name, optional := false, dflt := none } : EnvVarSpec) ∈
        environmentVariables →
      envCheckSuccess env = true → ∃ s, env name = some s ∧ s ≠ "" := by
    intro name hmem hsucc
    have h := List.all_eq_true.mp hsucc _ hmem
    simp only [envVarPasses, Bool.false_or] at h
    cases henv : env name with
    | none =>
      rw [henv] at h
      exact absurd h (by simp)
    | some s =>
      rw [henv] at h
      refine ⟨s, rfl, ?_⟩
      simpa using h
  have hfail : ∀ name : String,
      ({ name := name, optional := false, dflt := none } : EnvVarSpec) ∈
        environmentVariables →
      (env name = none ∨ env name = some "") → envCheckSuccess env = false := by
    intro name hmem hbad
    cases hb : envCheckSuccess env with
    | false => rfl
    | true =>
      rcases hget name hmem hb with ⟨s, hs, hne⟩
      rcases hbad with h0 | h0 <;> rw [h0] at hs
      · exact absurd hs (by simp)
      · injection hs with h
        exact absurd h.symm hne
  exact ⟨fun h => ⟨hget "USERNAME_HASH_SALT" (by decide) h,
      hget "PASSWORD_HASH_SALT" (by decide) h⟩,
    hfail "USERNAME_HASH_SALT" (by decide), hfail "PASSWORD_HASH_SALT" (by decide)⟩

/-- Witness for C9: an all-set environment passes and yields a non-empty
salt; the empty environment fails the check. -/
theorem salt_required_at_startup_witness :
    (∃ s, (fun _ => some "x" : Env) "USERNAME_HASH_SALT" = some s ∧ s ≠ "") ∧
    envCheckSuccess (fun _ => none) = false :=
  ⟨((salt_required_at_startup (fun _ => some "x")).1 (by rfl)).1,
   (salt_required_at_startup (fun _ => none)).2.1 (Or.inl rfl)⟩

/-! ## Claim C2 — idempotent signup -/

/-- The row `signup` persists for a fresh user: the internal id, the
adapter-assigned external id inside `user_info`, and the (undefined)
tenant the service supplies. -/
def signupRecord (b : SignupBody) (res : SignupResult) : UserRecord :=
  { user_id := b.user_id, user_info := { external_user_id := res.user_id },
    tenant_code := none }

/-- C2: if a record for the user already exists (under the tenant the
service supplies), `signup` answers 201 success with the existing row,
issues no adapter call and leaves the store unchanged; and a fresh signup
followed by a second signup for the same body yields success both times,
the second run calling nothing and changing nothing, with exactly one
matching local record afterwards. -/
theorem signup_idempotent (cfg : HashConfig) (a : Adapter) (b : SignupBody)
    (store : Store) (r : UserRecord) (res : SignupResult)
    (himg : b.image_url = none) :
    (userQueries.findOne { user_id := some b.user_id } none store = some r →
      CommunicationHelper.signup cfg a b store =
        { outcome := .ok (successResponse httpStatusCode.created "USER_ALREADY_EXISTS"
            (.record r)),
          calls := [], lookups := [{ user_id := some b.user_id }], store := store }) ∧
    (userQueries.findOne { user_id := some b.user_id } none store = none →
      a.signup b.name (usernameHash cfg b.user_id) (passwordHash cfg b.user_id) b.email =
        .ok res →
      (CommunicationHelper.signup cfg a b store).outcome =
        .ok (successResponse httpStatusCode.created "USER_CREATED_SUCCESSFULLY"
          (.signupRes res.user_id)) ∧
      (CommunicationHelper.signup cfg a b
          (CommunicationHelper.signup cfg a b store).store).outcome =
        .ok (successResponse httpStatusCode.created "USER_ALREADY_EXISTS"
          (.record (signupRecord b res))) ∧
      (CommunicationHelper.signup cfg a b
          (CommunicationHelper.signup cfg a b store).store).calls = [] ∧
      (CommunicationHelper.signup cfg a b
          (CommunicationHelper.signup cfg a b store).store).store =
        (CommunicationHelper.signup cfg a b store).store ∧
      ((CommunicationHelper.signup cfg a b store).store.filter
          (matchesFilter { user_id := some b.user_id } none)).length = 1) := by
  constructor
  · intro hex
    unfold CommunicationHelper.signup
    rw [hex]
  · intro hfresh hok
    have hrun1 : CommunicationHelper.signup cfg a b store =
        { outcome := .ok (successResponse httpStatusCode.created
            "USER_CREATED_SUCCESSFULLY" (.signupRes res.user_id)),
          calls := [AdapterCall.signupCall b.name (usernameHash cfg b.user_id)
            (passwordHash cfg b.user_id) b.email],
          lookups := [{ user_id := some b.user_id }],
          store := store ++ [signupRecord b res] } := by
      unfold CommunicationHelper.signup
      rw [hfresh]
      dsimp only
      rw [hok]
      dsimp only
      rw [himg]
      rfl
    have hmatch : matchesFilter { user_id := some b.user_id } none (signupRecord b res) =
        true := by
      simp [matchesFilter, signupRecord]
    have hfind2 : userQueries.findOne { user_id := some b.user_id } none
        (store ++ [signupRecord b res]) = some (signupRecord b res) := by
      unfold userQueries.findOne at hfresh ⊢
      rw [find?_append_of_none hfresh]
      rw [List.find?_cons_of_pos _ hmatch]
    have hrun2 : CommunicationHelper.signup cfg a b
        (CommunicationHelper.signup cfg a b store).store =
        { outcome := .ok (successResponse httpStatusCode.created "USER_ALREADY_EXISTS"
            (.record (signupRecord b res))),
          calls := [], lookups := [{ user_id := some b.user_id }],
          store := (CommunicationHelper.signup cfg a b store).store } := by
      rw [hrun1]
      unfold CommunicationHelper.signup
      rw [hfind2]
    have hcount : ((CommunicationHelper.signup cfg a b store).store.filter
        (matchesFilter { user_id := some b.user_id } none)).length = 1 := by
      rw [hrun1]
      rw [List.filter_append]
      have hnil : store.filter (matchesFilter { user_id := some b.user_id } none) = [] := by
        rw [List.filter_eq_nil_iff]
        intro x hx
        have := List.find?_eq_none.mp hfresh x hx
        simpa using this
      rw [hnil]
      simp [hmatch]
    refine ⟨by rw [hrun1], by rw [hrun2], by rw [hrun2], by rw [hrun2], hcount⟩

/-- The concrete signup body used by witnesses. -/
def bodyU1 : SignupBody :=
  { user_id := "u1", name := "Alice", email := "a@x.com", image_url := none }

/-- Witness for C2 at concrete inputs: empty store, concrete body, the
all-succeeding adapter. -/
theorem signup_idempotent_witness :
    (CommunicationHelper.signup defaultHashConfig adapterOk bodyU1 []).outcome =
      .ok (successResponse httpStatusCode.created "USER_CREATED_SUCCESSFULLY"
        (.signupRes "ext1")) ∧
    (CommunicationHelper.signup defaultHashConfig adapterOk bodyU1
        (CommunicationHelper.signup defaultHashConfig adapterOk bodyU1 []).store).outcome =
      .ok (successResponse httpStatusCode.created "USER_ALREADY_EXISTS"
        (.record (signupRecord bodyU1 { user_id := "ext1" }))) ∧
    (CommunicationHelper.signup defaultHashConfig adapterOk bodyU1
        (CommunicationHelper.signup defaultHashConfig adapterOk bodyU1 []).store).calls =
      [] ∧
    (CommunicationHelper.signup defaultHashConfig adapterOk bodyU1
        (CommunicationHelper.signup defaultHashConfig adapterOk bodyU1 []).store).store =
      (CommunicationHelper.signup defaultHashConfig adapterOk bodyU1 []).store ∧
    ((CommunicationHelper.signup defaultHashConfig adapterOk bodyU1 []).store.filter
        (matchesFilter { user_id := some "u1" } none)).length = 1 :=
  (signup_idempotent defaultHashConfig adapterOk bodyU1 [] recA { user_id := "ext1" }
    rfl).2 rfl rfl

/-! ## Claim C5 — userMapping round-trip -/

/-- Evaluation of a fresh-user `signup` (shared by the round-trip proof):
adapter signup succeeded with `res` and no avatar was requested, so the
run answers 201 success and appends exactly the persisted row. -/
theorem signup_fresh_run (cfg : HashConfig) (a : Adapter) (b : SignupBody)
    (store : Store) (res : SignupResult)
    (hfresh : userQueries.findOne { user_id := some b.user_id } none store = none)
    (hok : a.signup b.name (usernameHash cfg b.user_id) (passwordHash cfg b.user_id)
      b.email = .ok res)
    (himg : b.image_url = none) :
    CommunicationHelper.signup cfg a b store =
      { outcome := .ok (successResponse httpStatusCode.created
          "USER_CREATED_SUCCESSFULLY" (.signupRes res.user_id)),
        calls := [AdapterCall.signupCall b.name (usernameHash cfg b.user_id)
          (passwordHash cfg b.user_id) b.email],
        lookups := [{ user_id := some b.user_id }],
        store := store ++ [signupRecord b res] } := by
  unfold CommunicationHelper.signup
  rw [hfresh]
  dsimp only
  rw [hok]
  dsimp only
  rw [himg]
  rfl

/-- C5: after a fresh signup persisted a row with external id
`res.user_id`, `userMapping` applied to that external id over the
resulting store answers 200 success carrying the original internal
`user_id` and the same external id — provided no pre-existing row already
carried that external id. -/
theorem userMapping_roundtrip (cfg : HashConfig) (a : Adapter) (b : SignupBody)
    (store : Store) (res : SignupResult)
    (hfresh : userQueries.findOne { user_id := some b.user_id } none store = none)
    (hok : a.signup b.name (usernameHash cfg b.user_id) (passwordHash cfg b.user_id)
      b.email = .ok res)
    (himg : b.image_url = none)
    (hexfresh : ∀ r0 ∈ store, r0.user_info.external_user_id ≠ res.user_id) :
    (CommunicationHelper.signup cfg a b store).outcome =
      .ok (successResponse httpStatusCode.created "USER_CREATED_SUCCESSFULLY"
        (.signupRes res.user_id)) ∧
    CommunicationHelper.userMapping res.user_id
        (CommunicationHelper.signup cfg a b store).store =
      successResponse httpStatusCode.ok "NAME_UPDATED"
        (.mapping b.user_id res.user_id) := by
  have hrun := signup_fresh_run cfg a b store res hfresh hok himg
  refine ⟨by rw [hrun], ?_⟩
  have hnone : store.find?
      (userQueries.matchesJsonb { user_info_external_user_id := some res.user_id }
        none) = none := by
    rw [List.find?_eq_none]
    intro x hx hpx
    apply hexfresh x hx
    simp only [userQueries.matchesJsonb, Bool.and_eq_true, beq_iff_eq] at hpx
    exact hpx.1.1
  have hmatch : userQueries.matchesJsonb
      { user_info_external_user_id := some res.user_id } none (signupRecord b res) =
      true := by
    simp [userQueries.matchesJsonb, signupRecord]
  have hfind : userQueries.findUserWithJsonbFilter
      { user_info_external_user_id := some res.user_id } none
      (store ++ [signupRecord b res]) = some (signupRecord b res) := by
    unfold userQueries.findUserWithJsonbFilter
    rw [find?_append_of_none hnone]
    rw [List.find?_cons_of_pos _ hmatch]
  rw [hrun]
  unfold CommunicationHelper.userMapping
  rw [hfind]
  rfl

/-- Witness for C5 at concrete inputs: empty store, concrete body, the
all-succeeding adapter whose signup assigns external id `"ext1"`. -/
theorem userMapping_roundtrip_witness :
    (CommunicationHelper.signup defaultHashConfig adapterOk bodyU1 []).outcome =
      .ok (successResponse httpStatusCode.created "USER_CREATED_SUCCESSFULLY"
        (.signupRes "ext1")) ∧
    CommunicationHelper.userMapping "ext1"
        (CommunicationHelper.signup defaultHashConfig adapterOk bodyU1 []).store =
      successResponse httpStatusCode.ok "NAME_UPDATED" (.mapping "u1" "ext1") :=
  userMapping_roundtrip defaultHashConfig adapterOk bodyU1 [] { user_id := "ext1" }
    rfl rfl rfl (by simp)

/-! ## Claim C4 — logout flow and ordering -/

/-- C4 counterexample: in the service-module `logout`, a token-less
request for a user with no local record does not fail with a
user-not-found response — with an empty store and an all-succeeding
adapter it consults no local record at all (`lookups = []`, the local
lookup indeed finds nothing) and answers 200 `LOGGED_OUT`, a success,
whose status differs from 404. -/
theorem logout_missing_record_counterexample :
    userQueries.findOne { user_id := some "u1" } none [] = none ∧
    (CommunicationHelper.logout defaultHashConfig adapterOk
        { user_id := "u1", token := none } []).outcome =
      .ok (successResponse httpStatusCode.ok "LOGGED_OUT" (.chat "out")) ∧
    (successResponse httpStatusCode.ok "LOGGED_OUT" (.chat "out")).statusCode = 200 ∧
    (successResponse httpStatusCode.ok "LOGGED_OUT" (.chat "out")).statusCode ≠ 404 ∧
    (CommunicationHelper.logout defaultHashConfig adapterOk
        { user_id := "u1", token := none } []).lookups = [] :=
  ⟨rfl, rfl, rfl, by decide, rfl⟩

/-- C4 amended: the user-not-found guard lives in the `updateRCSettings`
variant of logout, which on a token-less request with no local record
answers a 404 `USER_DOES_NOT_EXIST` failure and calls no adapter method;
the service-module logout performs no local-record check.  In both
versions every token-less execution's adapter trace is a prefix-closed
`login`, then `logoutOtherClients`, then final `logout` on the fresh
session — so whenever the final logout happens, `logoutOtherClients` has
already preceded it — and with an explicit token `Adapter.logout` is
called directly with no local lookup and no store change. -/
theorem logout_flow_amended (cfg : HashConfig) (a : Adapter) (b : LogoutBody)
    (store : Store) (tk : String) :
    (b.token = none →
      userQueries.findOne { user_id := some b.user_id } none store = none →
      CommunicationHelper.logoutVariant cfg a b store =
        { outcome := .ok (failureResponse "USER_DOES_NOT_EXIST"
            httpStatusCode.not_found none),
          calls := [], lookups := [{ user_id := some b.user_id }], store := store }) ∧
    (b.token = none →
      ((∃ u p, (CommunicationHelper.logout cfg a b store).calls =
          [AdapterCall.loginCall u p]) ∨
       (∃ u p x t, (CommunicationHelper.logout cfg a b store).calls =
          [AdapterCall.loginCall u p, AdapterCall.logoutOtherClientsCall x t]) ∨
       (∃ u p x t, (CommunicationHelper.logout cfg a b store).calls =
          [AdapterCall.loginCall u p, AdapterCall.logoutOtherClientsCall x t,
           AdapterCall.logoutCall x t]))) ∧
    (b.token = none →
      (∃ r, userQueries.findOne { user_id := some b.user_id } none store = some r) →
      ((∃ u p, (CommunicationHelper.logoutVariant cfg a b store).calls =
          [AdapterCall.loginCall u p]) ∨
       (∃ u p x t, (CommunicationHelper.logoutVariant cfg a b store).calls =
          [AdapterCall.loginCall u p, AdapterCall.logoutOtherClientsCall x t]) ∨
       (∃ u p x t, (CommunicationHelper.logoutVariant cfg a b store).calls =
          [AdapterCall.loginCall u p, AdapterCall.logoutOtherClientsCall x t,
           AdapterCall.logoutCall x t]))) ∧
    (b.token = some tk →
      (CommunicationHelper.logout cfg a b store).calls =
        [AdapterCall.logoutCall b.user_id tk] ∧
      (CommunicationHelper.logout cfg a b store).lookups = [] ∧
      (CommunicationHelper.logout cfg a b store).store = store) := by
  refine ⟨?_, ?_, ?_, ?_⟩
  · intro h0 hnone
    unfold CommunicationHelper.logoutVariant
    rw [h0]
    dsimp only
    rw [hnone]
  · intro h0
    unfold CommunicationHelper.logout
    rw [h0]
    dsimp only
    cases a.login (usernameHash cfg b.user_id) (passwordHash cfg b.user_id) with
    | error e => exact Or.inl ⟨_, _, rfl⟩
    | ok lr =>
      dsimp only
      cases a.logoutOtherClients lr.user_id lr.auth_token with
      | error e => exact Or.inr (Or.inl ⟨_, _, _, _, rfl⟩)
      | ok d =>
        dsimp only
        cases a.logout lr.user_id lr.auth_token with
        | error e => exact Or.inr (Or.inr ⟨_, _, _, _, rfl⟩)
        | ok d2 => exact Or.inr (Or.inr ⟨_, _, _, _, rfl⟩)
  · intro h0 hex
    rcases hex with ⟨r, hr⟩
    unfold CommunicationHelper.logoutVariant
    rw [h0]
    dsimp only
    rw [hr]
    dsimp only
    cases a.login (usernameHash cfg b.user_id) (passwordHash cfg b.user_id) with
    | error e => exact Or.inl ⟨_, _, rfl⟩
    | ok lr =>
      dsimp only
      cases a.logoutOtherClients lr.user_id lr.auth_token with
      | error e => exact Or.inr (Or.inl ⟨_, _, _, _, rfl⟩)
      | ok d =>
        dsimp only
        cases a.logout lr.user_id lr.auth_token with
        | error e => exact Or.inr (Or.inr ⟨_, _, _, _, rfl⟩)
        | ok d2 => exact Or.inr (Or.inr ⟨_, _, _, _, rfl⟩)
  · intro h0
    unfold CommunicationHelper.logout
    rw [h0]
    dsimp only
    cases a.logout b.user_id tk with
    | error e => exact ⟨rfl, rfl, rfl⟩
    | ok d => exact ⟨rfl, rfl, rfl⟩

/-- Witness for C4 at concrete inputs: the variant's 404 guard on an empty
store, the ordering shape of a token-less run, and the direct token
branch. -/
theorem logout_flow_amended_witness :
    CommunicationHelper.logoutVariant defaultHashConfig adapterOk
        { user_id := "u1", token := none } [] =
      { outcome := .ok (failureResponse "USER_DOES_NOT_EXIST"
          httpStatusCode.not_found none),
        calls := [], lookups := [{ user_id := some "u1" }], store := [] } ∧
    ((∃ u p, (CommunicationHelper.logout defaultHashConfig adapterOk
        { user_id := "u1", token := none } []).calls = [AdapterCall.loginCall u p]) ∨
     (∃ u p x t, (CommunicationHelper.logout defaultHashConfig adapterOk
        { user_id := "u1", token := none } []).calls =
        [AdapterCall.loginCall u p, AdapterCall.logoutOtherClientsCall x t]) ∨
     (∃ u p x t, (CommunicationHelper.logout defaultHashConfig adapterOk
        { user_id := "u1", token := none } []).calls =
        [AdapterCall.loginCall u p, AdapterCall.logoutOtherClientsCall x t,
         AdapterCall.logoutCall x t])) ∧
    (CommunicationHelper.logout defaultHashConfig adapterOk
        { user_id := "u1", token := some "tok" } []).calls =
      [AdapterCall.logoutCall "u1" "tok"] :=
  ⟨(logout_flow_amended defaultHashConfig adapterOk
      { user_id := "u1", token := none } [] "tok").1 rfl rfl,
   (logout_flow_amended defaultHashConfig adapterOk
      { user_id := "u1", token := none } [] "tok").2.1 rfl,
   ((logout_flow_amended defaultHashConfig adapterOk
      { user_id := "u1", token := some "tok" } [] "tok").2.2.2 rfl).1⟩

/-! ## Claim C7 — login error mapping -/

/-- C7: an adapter login rejection carrying the `'unauthorized'` error
(the class `handleError` produces for HTTP 401) makes `login` return the
typed 401 `UNAUTHORIZED` failure instead of throwing; any adapter error
with a different message propagates out of the operation unchanged; and
`handleError` maps every HTTP 401 rejection to the `'unauthorized'`
error. -/
theorem login_unauthorized_mapping (cfg : HashConfig) (a : Adapter) (b : LoginBody)
    (store : Store) (e : JsError) (resp : HttpErrorResponse) (msg : String)
    (h401 : resp.status = 401) :
    (a.login (usernameHash cfg b.user_id) (passwordHash cfg b.user_id) =
        .error { message := "unauthorized" } →
      (CommunicationHelper.login cfg a b store).outcome =
        .ok (failureResponse apiResponses.UNAUTHORIZED_REQUEST
          httpStatusCode.unauthorized (some "UNAUTHORIZED"))) ∧
    (e.message ≠ "unauthorized" →
      a.login (usernameHash cfg b.user_id) (passwordHash cfg b.user_id) = .error e →
      (CommunicationHelper.login cfg a b store).outcome = .error e) ∧
    handleError { response := some resp, message := msg } =
      .error { message := "unauthorized" } := by
  refine ⟨?_, ?_, ?_⟩
  · intro h
    unfold CommunicationHelper.login
    dsimp only
    rw [h]
    rfl
  · intro hne h
    unfold CommunicationHelper.login
    dsimp only
    rw [h]
    simp [catchUnauthorized, hne]
  · simp [handleError, h401]

/-- An adapter whose every method is rejected with the `'unauthorized'`
error, as after an HTTP 401. -/
def adapterUnauthorized : Adapter :=
  { signup := fun _ _ _ _ => .error { message := "unauthorized" }
    login := fun _ _ => .error { message := "unauthorized" }
    logout := fun _ _ => .error { message := "unauthorized" }
    logoutOtherClients := fun _ _ => .error { message := "unauthorized" }
    initiateChatRoom := fun _ => .error { message := "unauthorized" }
    sendMessage := fun _ _ _ _ => .error { message := "unauthorized" }
    setAvatar := fun _ _ => .error { message := "unauthorized" } }

/-- An adapter whose every method is rejected with an unclassified
error. -/
def adapterBoom : Adapter :=
  { signup := fun _ _ _ _ => .error { message := "boom" }
    login := fun _ _ => .error { message := "boom" }
    logout := fun _ _ => .error { message := "boom" }
    logoutOtherClients := fun _ _ => .error { message := "boom" }
    initiateChatRoom := fun _ => .error { message := "boom" }
    sendMessage := fun _ _ _ _ => .error { message := "boom" }
    setAvatar := fun _ _ => .error { message := "boom" } }

/-- Witness for C7 at concrete inputs: a never-signed-up user against the
rejecting adapter gets the typed 401 failure; an unclassified error
propagates unchanged; a concrete 401 maps to `'unauthorized'`. -/
theorem login_unauthorized_mapping_witness :
    (CommunicationHelper.login defaultHashConfig adapterUnauthorized
        { user_id := "u9" } []).outcome =
      .ok (failureResponse apiResponses.UNAUTHORIZED_REQUEST
        httpStatusCode.unauthorized (some "UNAUTHORIZED")) ∧
    (CommunicationHelper.login defaultHashConfig adapterBoom
        { user_id := "u9" } []).outcome = .error { message := "boom" } ∧
    handleError { response := some { status := 401, errorType := none }, message := "m" } =
      .error { message := "unauthorized" } :=
  ⟨(login_unauthorized_mapping defaultHashConfig adapterUnauthorized { user_id := "u9" }
      [] { message := "boom" } { status := 401, errorType := none } "m" rfl).1 rfl,
   (login_unauthorized_mapping defaultHashConfig adapterBoom { user_id := "u9" }
      [] { message := "boom" } { status := 401, errorType := none } "m" rfl).2.1
      (by decide) rfl,
   (login_unauthorized_mapping defaultHashConfig adapterBoom { user_id := "u9" }
      [] { message := "boom" } { status := 401, errorType := none } "m" rfl).2.2⟩

/-! ## Claim C8 — createRoom error mapping -/

/-- C8: an adapter rejection carrying the `'invalid-users'` error (the
class `handleError` produces for HTTP 400 with
`errorType = 'error-invalid-user'`, e.g. a non-existent username) makes
`createRoom` return the typed 400 `CLIENT_ERROR` failure instead of
raising, whether it arises at room creation or at the initial message
send; any adapter error with a different message propagates out of the
operation; and `handleError` maps every such HTTP 400 rejection to the
`'invalid-users'` error. -/
theorem createRoom_invalid_users_mapping (cfg : HashConfig) (a : Adapter)
    (b : CreateRoomBody) (store : Store) (e : JsError) (room : RoomResult)
    (resp : HttpErrorResponse) (msg : String)
    (h400 : resp.status = 400) (htype : resp.errorType = some "error-invalid-user") :
    (a.initiateChatRoom [usernameHash cfg (jsIndex b.usernames 0),
        usernameHash cfg (jsIndex b.usernames 1)] =
        .error { message := "invalid-users" } →
      (CommunicationHelper.createRoom cfg a b store).outcome =
        .ok (failureResponse apiResponses.USER_DOEST_NOT_EXIST
          httpStatusCode.bad_request (some "CLIENT_ERROR"))) ∧
    (a.initiateChatRoom [usernameHash cfg (jsIndex b.usernames 0),
        usernameHash cfg (jsIndex b.usernames 1)] = .ok room →
      a.sendMessage (usernameHash cfg (jsIndex b.usernames 0))
        (passwordHash cfg (jsIndex b.usernames 0)) room.room_id b.initial_message =
        .error { message := "invalid-users" } →
      (CommunicationHelper.createRoom cfg a b store).outcome =
        .ok (failureResponse apiResponses.USER_DOEST_NOT_EXIST
          httpStatusCode.bad_request (some "CLIENT_ERROR"))) ∧
    (e.message ≠ "invalid-users" →
      a.initiateChatRoom [usernameHash cfg (jsIndex b.usernames 0),
        usernameHash cfg (jsIndex b.usernames 1)] = .error e →
      (CommunicationHelper.createRoom cfg a b store).outcome = .error e) ∧
    handleError { response := some resp, message := msg } =
      .error { message := "invalid-users" } := by
  refine ⟨?_, ?_, ?_, ?_⟩
  · intro h
    unfold CommunicationHelper.createRoom
    dsimp only
    rw [h]
    rfl
  · intro h hsend
    unfold CommunicationHelper.createRoom
    dsimp only
    rw [h]
    dsimp only
    rw [hsend]
    rfl
  · intro hne h
    unfold CommunicationHelper.createRoom
    dsimp only
    rw [h]
    simp [CommunicationHelper.catchInvalidUsers, hne]
  · simp [handleError, h400, htype]

/-- An adapter whose every method is rejected with the `'invalid-users'`
error, as after an HTTP 400 `error-invalid-user`. -/
def adapterInvalidUsers : Adapter :=
  { signup := fun _ _ _ _ => .error { message := "invalid-users" }
    login := fun _ _ => .error { message := "invalid-users" }
    logout := fun _ _ => .error { message := "invalid-users" }
    logoutOtherClients := fun _ _ => .error { message := "invalid-users" }
    initiateChatRoom := fun _ => .error { message := "invalid-users" }
    sendMessage := fun _ _ _ _ => .error { message := "invalid-users" }
    setAvatar := fun _ _ => .error { message := "invalid-users" } }

/-- Witness for C8 at concrete inputs: a room request over non-existent
usernames gets the typed 400 client error; an unclassified error
propagates; a concrete 400 `error-invalid-user` maps to
`'invalid-users'`. -/
theorem createRoom_invalid_users_mapping_witness :
    (CommunicationHelper.createRoom defaultHashConfig adapterInvalidUsers
        { usernames := ["ghost1", "ghost2"], initial_message := "hi" } []).outcome =
      .ok (failureResponse apiResponses.USER_DOEST_NOT_EXIST
        httpStatusCode.bad_request (some "CLIENT_ERROR")) ∧
    (CommunicationHelper.createRoom defaultHashConfig adapterBoom
        { usernames := ["ghost1", "ghost2"], initial_message := "hi" } []).outcome =
      .error { message := "boom" } ∧
    handleError
        { response := some { status := 400, errorType := some "error-invalid-user" },
          message := "m" } =
      .error { message := "invalid-users" } :=
  ⟨(createRoom_invalid_users_mapping defaultHashConfig adapterInvalidUsers
      { usernames := ["ghost1", "ghost2"], initial_message := "hi" } []
      { message := "boom" } { room_id := "r" }
      { status := 400, errorType := some "error-invalid-user" } "m" rfl rfl).1 rfl,
   (createRoom_invalid_users_mapping defaultHashConfig adapterBoom
      { usernames := ["ghost1", "ghost2"], initial_message := "hi" } []
      { message := "boom" } { room_id := "r" }
      { status := 400, errorType := some "error-invalid-user" } "m" rfl rfl).2.2.1
      (by decide) rfl,
   (createRoom_invalid_users_mapping defaultHashConfig adapterBoom
      { usernames := ["ghost1", "ghost2"], initial_message := "hi" } []
      { message := "boom" } { room_id := "r" }
      { status := 400, errorType := some "error-invalid-user" } "m" rfl rfl).2.2.2⟩

/-! ## Claim C10 — explicit-token logout forwards the raw user id -/

/-- C10: when a token is supplied, `logout` performs exactly one adapter
call — `Adapter.logout` with the raw internal `user_id` from the request
body and the given token — with no local lookup and no store change, and
the adapter places that first argument verbatim in the remote request's
`X-User-Id` header; in particular no hash and no stored external id is
substituted. -/
theorem logout_token_forwards_raw_user_id (cfg : HashConfig) (a : Adapter)
    (b : LogoutBody) (store : Store) (tk : String)
    (h : b.token = some tk) :
    (CommunicationHelper.logout cfg a b store).calls =
      [AdapterCall.logoutCall b.user_id tk] ∧
    (CommunicationHelper.logout cfg a b store).lookups = [] ∧
    (CommunicationHelper.logout cfg a b store).store = store ∧
    (rocketLogoutHeaders b.user_id tk).xUserId = b.user_id := by
  unfold CommunicationHelper.logout
  rw [h]
  dsimp only
  cases a.logout b.user_id tk with
  | error e => exact ⟨rfl, rfl, rfl, rfl⟩
  | ok d => exact ⟨rfl, rfl, rfl, rfl⟩

/-- Witness for C10 at concrete inputs: a token-bearing logout issues one
direct adapter logout with the raw id `"u1"`. -/
theorem logout_token_forwards_raw_user_id_witness :
    (CommunicationHelper.logout defaultHashConfig adapterOk
        { user_id := "u1", token := some "tok" } []).calls =
      [AdapterCall.logoutCall "u1" "tok"] ∧
    (CommunicationHelper.logout defaultHashConfig adapterOk
        { user_id := "u1", token := some "tok" } []).lookups = [] ∧
    (CommunicationHelper.logout defaultHashConfig adapterOk
        { user_id := "u1", token := some "tok" } []).store = [] ∧
    (rocketLogoutHeaders "u1" "tok").xUserId = "u1" :=
  logout_token_forwards_raw_user_id defaultHashConfig adapterOk
    { user_id := "u1", token := some "tok" } [] "tok" rfl
